import Mathlib

/-!
Verification of the client-side user-service module
(`services/userServices.ts`, "Properly Typed Version").

The module wraps five HTTP operations (list, create, get-by-id, update,
delete) against one base URL. We shallowly embed its pure decision logic:

* JavaScript numbers are modelled by `JSNum` (a rational value or NaN).
  The only numeric semantics the module uses are falsiness (`!x`, true for
  `0` and `NaN`), the comparison `x <= 0` (false for `NaN`), and
  `Number(x)`, which is the identity on numbers.
* JSON values are modelled by `Json`.  `typeof v === "object"` holds for
  objects and arrays; an `in`-check followed by a `typeof` check on a field
  is modelled by looking the key up (last binding wins, as in `JSON.parse`).
* A settled HTTP exchange is a `HttpResponse` record: the status, status
  text, `content-type` header, raw body text, and `bodyJson`, which stands
  for the result of `JSON.parse` applied to the body (`none` when the body
  is not valid JSON, in which case `response.json()` rejects).
* `fetch`-level failures (network errors) are outside the model: every
  theorem below is about a request that produced a response.
* Thrown `Error` instances are modelled by `Except String`: every throw in
  the module is `new Error(msg)`, and `handleApiError` returns `Error`
  instances unchanged, so the message thrown inside an operation is exactly
  the message the caller observes.
* Each operation is split into a request-builder (the validation that runs
  before `fetch`, returning the request body that would be sent) and the
  full operation (request-builder composed with `apiCall` on the server's
  response).  "Issues no network request" is `requestBuilder = .error _`.
  The URL-building step `encodeURIComponent(id)` is not modelled: no claim
  concerns URL encoding.
-/

/-- A JavaScript number: NaN or a (rational) numeric value.  The module
never performs arithmetic, so a rational carrier is enough. -/
inductive JSNum where
  | nan : JSNum
  | val (q : ℚ) : JSNum
deriving DecidableEq

/-- JS falsiness of a number: `!x` is true exactly for `0`, `-0` and `NaN`. -/
def JSNum.falsy : JSNum → Bool
  | .nan => true
  | .val q => decide (q = 0)

/-- The JS comparison `x <= 0`: false for `NaN` (all NaN comparisons are
false), otherwise the numeric comparison. -/
def JSNum.le0 : JSNum → Bool
  | .nan => false
  | .val q => decide (q ≤ 0)

/-- A JSON value (the possible results of `JSON.parse`). -/
inductive Json where
  | null : Json
  | bool (b : Bool) : Json
  | num (n : JSNum) : Json
  | str (s : String) : Json
  | arr (elems : List Json) : Json
  | obj (fields : List (String × Json)) : Json

/-- Field lookup in a parsed JSON object; with duplicate keys `JSON.parse`
keeps the last binding, so the last match wins. -/
def jsonGet : List (String × Json) → String → Option Json
  | [], _ => none
  | (k, v) :: rest, key =>
    match jsonGet rest key with
    | some w => some w
    | none => if k = key then some v else none

/-- Property access `j.key` on a JSON value: defined (only) on objects. -/
def Json.getField : Json → String → Option Json
  | .obj fields, key => jsonGet fields key
  | _, _ => none

/-- JS whitespace characters stripped by `String.prototype.trim`
(WhiteSpace ∪ LineTerminator; the common members suffice here). -/
def isJsWhitespaceChar (c : Char) : Bool :=
  c = ' ' || c = '\t' || c = '\n' || c = '\r' ||
  c = '\x0b' || c = '\x0c' || c = '\u00A0' || c = '\uFEFF'

/-- JS `s.trim()`: strip whitespace from both ends. -/
def jsTrim (s : String) : String :=
  String.mk (((s.data.dropWhile isJsWhitespaceChar).reverse.dropWhile
    isJsWhitespaceChar).reverse)

/-- Does `sub` occur contiguously in `hay`?  (JS `hay.includes(sub)`.) -/
def charsContains (sub : List Char) : List Char → Bool
  | [] => sub.isEmpty
  | c :: t => sub.isPrefixOf (c :: t) || charsContains sub t

/-- JS `s.includes(sub)`. -/
def strIncludes (s sub : String) : Bool :=
  charsContains sub.data s.data

/-- Type guard `isApiError` (source lines 33–40): `typeof obj === "object"`,
non-null, with a `message` field of string type.  Arrays are objects in JS
but have no `message` property; primitives fail the `typeof` check. -/
def isApiError : Json → Bool
  | .obj fields =>
    match jsonGet fields "message" with
    | some (.str _) => true
    | _ => false
  | _ => false

/-- The access `errorData.message`, performed by `apiCall` only after
`isApiError` succeeded; the fallback is never reached under that guard. -/
def errorDataMessage : Json → String
  | .obj fields =>
    match jsonGet fields "message" with
    | some (.str m) => m
    | _ => ""
  | _ => ""

/-- Type guard `isUser` (source lines 42–53): `typeof obj === "object"`,
non-null, with `firstname`/`lastname` string fields and a numeric `age`
field.  Presence plus type of each field is exactly a successful lookup of
a value of the right shape. -/
def isUser : Json → Bool
  | .obj fields =>
    (match jsonGet fields "firstname" with
      | some (.str _) => true
      | _ => false) &&
    (match jsonGet fields "lastname" with
      | some (.str _) => true
      | _ => false) &&
    (match jsonGet fields "age" with
      | some (.num _) => true
      | _ => false)
  | _ => false

/-- A settled HTTP response as the module observes it.  `bodyJson` is the
result of `JSON.parse` on `bodyText` (`none` when parsing fails, in which
case `response.json()` rejects). -/
structure HttpResponse where
  status : Nat
  statusText : String
  contentType : Option String
  bodyText : String
  bodyJson : Option Json

/-- `response.ok`: status in the inclusive range 200–299. -/
def HttpResponse.ok (r : HttpResponse) : Bool :=
  decide (200 ≤ r.status) && decide (r.status ≤ 299)

/-- The check `contentType && contentType.includes("application/json")`
(source line 126, negated there): a present header containing the JSON
media type. -/
def HttpResponse.hasJsonContentType (r : HttpResponse) : Bool :=
  match r.contentType with
  | none => false
  | some ct => strIncludes ct "application/json"

/-- The fallback error text `HTTP {status}: {statusText}` (source line 110). -/
def httpStatusMessage (r : HttpResponse) : String :=
  "HTTP " ++ toString r.status ++ ": " ++ r.statusText

/-- Stand-in for the message of the `SyntaxError` thrown by
`response.json()` on a 2xx JSON-typed response whose body does not parse;
the exact text is produced by the JS runtime and never inspected. -/
def jsonSyntaxErrorMessage : String := "SyntaxError: invalid JSON body"

/-- What `apiCall` hands back: the parsed JSON body, or the raw body text
(the generic `T` is a compile-time fiction in the source). -/
inductive ApiValue where
  | text (s : String) : ApiValue
  | json (j : Json) : ApiValue

/-- `Array.isArray(data)` on an `apiCall` result: only a parsed JSON array
qualifies; raw text is a string. -/
def ApiValue.asArray : ApiValue → Option (List Json)
  | .json (.arr xs) => some xs
  | _ => none

/-- `apiCall` (source lines 102–137) applied to the settled response.
Non-2xx: the error message is the body's `message` field when the body
parses as an API-error shape, else the status-derived text (a JSON-parse
failure is caught by the inner `try` and keeps the fallback).  2xx: JSON
content type → the parsed body (a parse failure rejects with the
`SyntaxError`, passed through `handleApiError` unchanged since it is an
`Error` instance); otherwise → the raw body text. -/
def apiCall (resp : HttpResponse) : Except String ApiValue :=
  if resp.ok then
    if resp.hasJsonContentType then
      match resp.bodyJson with
      | some j => Except.ok (.json j)
      | none => Except.error jsonSyntaxErrorMessage
    else
      Except.ok (.text resp.bodyText)
  else
    match resp.bodyJson with
    | some j =>
      if isApiError j then Except.error (errorDataMessage j)
      else Except.error (httpStatusMessage resp)
    | none => Except.error (httpStatusMessage resp)

/-! ## Service operations -/

/-- `"Invalid response format: Expected array of users"` (source line 146). -/
def invalidArrayMessage : String :=
  "Invalid response format: Expected array of users"

/-- `"ID pengguna tidak valid"` (source lines 198, 221, 271). -/
def invalidIdMessage : String := "ID pengguna tidak valid"

/-- `"Invalid user data received from server"` (source line 206). -/
def invalidUserMessage : String := "Invalid user data received from server"

/-- `"Nama depan tidak boleh kosong"` (source lines 166, 230). -/
def emptyFirstnameMessage : String := "Nama depan tidak boleh kosong"

/-- `"Nama belakang tidak boleh kosong"` (source lines 169, 238). -/
def emptyLastnameMessage : String := "Nama belakang tidak boleh kosong"

/-- `"Usia harus lebih dari 0"` (source lines 172, 246). -/
def nonPositiveAgeMessage : String := "Usia harus lebih dari 0"

/-- `getAllUsers` (source lines 140–160): GET the base URL; reject unless
the result is an array; keep exactly the entries passing `isUser` (a
mismatch in length is only logged). -/
def getAllUsers (resp : HttpResponse) : Except String (List Json) :=
  match apiCall resp with
  | Except.error e => Except.error e
  | Except.ok v =>
    match v.asArray with
    | none => Except.error invalidArrayMessage
    | some xs => Except.ok (xs.filter isUser)

/-- The argument of `createUser`: `Omit<User, "id">`. -/
structure CreateInput where
  firstname : String
  lastname : String
  age : JSNum

/-- The `cleanUser` body `createUser` POSTs. -/
structure CreateBody where
  firstname : String
  lastname : String
  age : JSNum
deriving DecidableEq

/-- The validation/normalization `createUser` performs before `fetch`
(source lines 164–179): reject an empty-after-trim `firstname` or
`lastname` (`!s.trim()`), reject a falsy age (`!user.age`, catching `0`
and `NaN`) or one with `age <= 0`; otherwise the POSTed body carries the
trimmed names and `Number(user.age)` (the identity on a number). -/
def createUserRequest (user : CreateInput) : Except String CreateBody :=
  if jsTrim user.firstname = "" then Except.error emptyFirstnameMessage
  else if jsTrim user.lastname = "" then Except.error emptyLastnameMessage
  else if user.age.falsy || user.age.le0 then Except.error nonPositiveAgeMessage
  else Except.ok
    { firstname := jsTrim user.firstname
      lastname := jsTrim user.lastname
      age := user.age }

/-- `createUser` (source lines 162–193): validate and normalize, POST the
clean body, resolve with whatever `apiCall` yields for the response. -/
def createUser (user : CreateInput) (resp : HttpResponse) :
    Except String ApiValue :=
  match createUserRequest user with
  | Except.error e => Except.error e
  | Except.ok _ => apiCall resp

/-- The id validation `getUserById` performs before `fetch` (source lines
197–199): a falsy trimmed id (`!id?.trim()`) rejects; otherwise the GET
targets that id. -/
def getUserByIdRequest (id : String) : Except String String :=
  if jsTrim id = "" then Except.error invalidIdMessage
  else Except.ok id

/-- `getUserById` (source lines 195–213): validate the id, GET, and reject
unless the result passes `isUser` (raw text is a string, never a user). -/
def getUserById (id : String) (resp : HttpResponse) : Except String Json :=
  match getUserByIdRequest id with
  | Except.error e => Except.error e
  | Except.ok _ =>
    match apiCall resp with
    | Except.error e => Except.error e
    | Except.ok (.text _) => Except.error invalidUserMessage
    | Except.ok (.json j) =>
      if isUser j then Except.ok j else Except.error invalidUserMessage

/-- The argument of `updateUserById`: `Partial<Omit<User, "id">>`
(each field present or absent). -/
structure UpdateInput where
  firstname : Option String
  lastname : Option String
  age : Option JSNum

/-- The `cleanUpdates` body `updateUserById` PATCHes; all fields absent is
the empty JSON object `{}`. -/
structure UpdateBody where
  firstname : Option String
  lastname : Option String
  age : Option JSNum
deriving DecidableEq

/-- The per-field check on a supplied `firstname`/`lastname` (source lines
227–241): the trimmed value must be non-empty and is stored trimmed;
an absent field is skipped. -/
def checkOptionalName (msg : String) : Option String →
    Except String (Option String)
  | none => Except.ok none
  | some f =>
    if jsTrim f = "" then Except.error msg
    else Except.ok (some (jsTrim f))

/-- The per-field check on a supplied `age` (source lines 243–249):
`Number(updates.age) <= 0` rejects; note there is no falsiness check, so
`NaN` (for which `<=` is false) passes. -/
def checkOptionalAge : Option JSNum → Except String (Option JSNum)
  | none => Except.ok none
  | some a =>
    if a.le0 then Except.error nonPositiveAgeMessage
    else Except.ok (some a)

/-- The validation `updateUserById` performs before `fetch` (source lines
220–249), sequentially: the id check, then `firstname`, `lastname`, `age`
in source order, stopping at the first failure. -/
def updateUserByIdRequest (id : String) (updates : UpdateInput) :
    Except String UpdateBody :=
  if jsTrim id = "" then Except.error invalidIdMessage
  else
    match checkOptionalName emptyFirstnameMessage updates.firstname with
    | Except.error e => Except.error e
    | Except.ok firstname =>
      match checkOptionalName emptyLastnameMessage updates.lastname with
      | Except.error e => Except.error e
      | Except.ok lastname =>
        match checkOptionalAge updates.age with
        | Except.error e => Except.error e
        | Except.ok age =>
          Except.ok { firstname := firstname, lastname := lastname, age := age }

/-- `updateUserById` (source lines 215–266): validate, PATCH the clean
body, resolve with whatever `apiCall` yields for the response. -/
def updateUserById (id : String) (updates : UpdateInput)
    (resp : HttpResponse) : Except String ApiValue :=
  match updateUserByIdRequest id updates with
  | Except.error e => Except.error e
  | Except.ok _ => apiCall resp

/-- The id validation `deleteUserById` performs before `fetch` (source
lines 270–272). -/
def deleteUserByIdRequest (id : String) : Except String String :=
  if jsTrim id = "" then Except.error invalidIdMessage
  else Except.ok id

/-- `deleteUserById` (source lines 268–285): validate the id, DELETE,
resolve with whatever `apiCall` yields for the response. -/
def deleteUserById (id : String) (resp : HttpResponse) :
    Except String ApiValue :=
  match deleteUserByIdRequest id with
  | Except.error e => Except.error e
  | Except.ok _ => apiCall resp

/-! ## Spec-side definitions

These follow the wording of the specification (not the source) and are
compared against the source-derived definitions above. -/

/-- Validity of a create input per the code's validation rule (the amended
claim C1): names non-empty after trimming, and a numeric (non-NaN) age
strictly greater than 0. -/
def validCreateInput (u : CreateInput) : Bool :=
  !decide (jsTrim u.firstname = "") && !decide (jsTrim u.lastname = "") &&
  (match u.age with
   | JSNum.nan => false
   | JSNum.val q => decide (0 < q))

/-- The error message the spec's response-handling contract prescribes for
a non-2xx response: the body's `message` field when the body parses as
JSON containing a string `message`, otherwise a message derived from the
HTTP status. -/
def specNonOkMessage (resp : HttpResponse) : String :=
  match resp.bodyJson with
  | some body =>
    match body.getField "message" with
    | some (Json.str m) => m
    | _ => httpStatusMessage resp
  | none => httpStatusMessage resp

/-- Modelled from the spec: the idealized server assumed by the round-trip
property — it stores the body `createUser` sent and returns that user,
with the assigned id, as the JSON body of a subsequent get-by-id. -/
def serverUserJson (b : CreateBody) (id : String) : Json :=
  Json.obj [("id", Json.str id), ("firstname", Json.str b.firstname),
    ("lastname", Json.str b.lastname), ("age", Json.num b.age)]

/-! ## Claims -/

/-- C1 counterexample: the claim requires every input violating
`0 < age ≤ 150` to be rejected with no network request, but `createUser`
only checks `!age || age <= 0` — an input with age `151` (which violates
the claimed `age ≤ 150` bound) passes validation and the POST request is
issued. -/
theorem createUser_age_cap_counterexample :
    ¬ ((151 : ℚ) ≤ 150) ∧
    createUserRequest ⟨"Alice", "Smith", JSNum.val 151⟩ =
      Except.ok ⟨"Alice", "Smith", JSNum.val 151⟩ := by
  exact ⟨by norm_num, rfl⟩

/-- C1 (amended: the upper bound `age ≤ 150` is dropped; the code enforces
only `0 < age`).  For every input with non-empty trimmed names and a
numeric age strictly greater than 0, `createUser` sends exactly the
trimmed names and the numerically converted age in the POST body and
resolves with whatever the server call yields; for every other input it
rejects with one of the three validation messages and issues no network
request (the request builder itself fails). -/
theorem createUser_validation_spec (u : CreateInput) (resp : HttpResponse) :
    if validCreateInput u then
      createUserRequest u =
        Except.ok ⟨jsTrim u.firstname, jsTrim u.lastname, u.age⟩ ∧
      createUser u resp = apiCall resp
    else
      ∃ e, (e = emptyFirstnameMessage ∨ e = emptyLastnameMessage ∨
            e = nonPositiveAgeMessage) ∧
        createUserRequest u = Except.error e ∧
        createUser u resp = Except.error e := by
  rcases u with ⟨f, l, a⟩
  by_cases h1 : jsTrim f = ""
  · simp [validCreateInput, createUserRequest, createUser, h1]
  · by_cases h2 : jsTrim l = ""
    · simp [validCreateInput, createUserRequest, createUser, h1, h2]
    · cases a with
      | nan =>
        simp [validCreateInput, createUserRequest, createUser, h1, h2,
          JSNum.falsy, JSNum.le0]
      | val q =>
        by_cases h3 : 0 < q
        · have hq0 : ¬ q = 0 := ne_of_gt h3
          have hqle : ¬ q ≤ 0 := not_le.mpr h3
          simp [validCreateInput, createUserRequest, createUser, h1, h2,
            JSNum.falsy, JSNum.le0, h3, hq0, hqle]
        · have hqle : q ≤ 0 := le_of_not_lt h3
          by_cases hq0 : q = 0
          · simp [validCreateInput, createUserRequest, createUser, h1, h2,
              JSNum.falsy, JSNum.le0, h3, hq0]
          · simp [validCreateInput, createUserRequest, createUser, h1, h2,
              JSNum.falsy, JSNum.le0, h3, hq0, hqle]

/-- C2: on a 2xx exchange whose result value is not an array (raw text, or
parsed JSON of any non-array shape), `getAllUsers` rejects with the
invalid-response-format message and never resolves with any list. -/
theorem getAllUsers_nonarray_rejects (resp : HttpResponse) (v : ApiValue)
    (h : apiCall resp = Except.ok v) (hv : v.asArray = none) :
    getAllUsers resp = Except.error invalidArrayMessage ∧
    ∀ xs : List Json, getAllUsers resp ≠ Except.ok xs := by
  have hmain : getAllUsers resp = Except.error invalidArrayMessage := by
    simp [getAllUsers, h, hv]
  exact ⟨hmain, fun xs hxs => by rw [hmain] at hxs; cases hxs⟩

/-- C2 witness: a 200 response whose JSON body is an object, not an array. -/
theorem getAllUsers_nonarray_rejects_witness :
    getAllUsers ⟨200, "OK", some "application/json", "{}",
        some (Json.obj [])⟩ =
      Except.error invalidArrayMessage :=
  (getAllUsers_nonarray_rejects
    ⟨200, "OK", some "application/json", "{}", some (Json.obj [])⟩
    (ApiValue.json (Json.obj [])) rfl rfl).1

/-- C3: on a response whose parsed body is a JSON array, `getAllUsers`
resolves with exactly the entries passing the `isUser` shape check, as a
sublist of the original array (original order, nothing else dropped): every
well-formed entry is kept. -/
theorem getAllUsers_filters_in_order (resp : HttpResponse) (xs : List Json)
    (h : apiCall resp = Except.ok (ApiValue.json (Json.arr xs))) :
    getAllUsers resp = Except.ok (xs.filter isUser) ∧
    (xs.filter isUser).Sublist xs ∧
    ∀ j ∈ xs, isUser j = true → j ∈ xs.filter isUser := by
  refine ⟨by simp [getAllUsers, h, ApiValue.asArray],
    List.filter_sublist xs, fun j hj hu => List.mem_filter.mpr ⟨hj, hu⟩⟩

/-- C3 witness: a two-element array with one well-formed and one malformed
entry resolves with just the well-formed one. -/
theorem getAllUsers_filters_in_order_witness :
    getAllUsers ⟨200, "OK", some "application/json",
        "[\x7b\x7d]",
        some (Json.arr [Json.obj [("firstname", Json.str "Alice"),
          ("lastname", Json.str "Smith"),
          ("age", Json.num (JSNum.val 30))], Json.null])⟩ =
      Except.ok [Json.obj [("firstname", Json.str "Alice"),
        ("lastname", Json.str "Smith"),
        ("age", Json.num (JSNum.val 30))]] :=
  (getAllUsers_filters_in_order
    ⟨200, "OK", some "application/json", "[\x7b\x7d]",
      some (Json.arr [Json.obj [("firstname", Json.str "Alice"),
        ("lastname", Json.str "Smith"),
        ("age", Json.num (JSNum.val 30))], Json.null])⟩
    [Json.obj [("firstname", Json.str "Alice"),
      ("lastname", Json.str "Smith"),
      ("age", Json.num (JSNum.val 30))], Json.null] rfl).1

/-- Helper: on any non-2xx response `apiCall` rejects with exactly the
message the spec's response-handling contract prescribes. -/
lemma apiCall_nonOk (resp : HttpResponse) (h : resp.ok = false) :
    apiCall resp = Except.error (specNonOkMessage resp) := by
  cases hb : resp.bodyJson with
  | none => simp [apiCall, specNonOkMessage, h, hb]
  | some j =>
    cases j with
    | obj fields =>
      cases hm : jsonGet fields "message" with
      | none =>
        simp [apiCall, specNonOkMessage, h, hb, isApiError,
          errorDataMessage, Json.getField, hm]
      | some v =>
        cases v <;>
          simp [apiCall, specNonOkMessage, h, hb, isApiError,
            errorDataMessage, Json.getField, hm]
    | null => simp [apiCall, specNonOkMessage, h, hb, isApiError, Json.getField]
    | bool b => simp [apiCall, specNonOkMessage, h, hb, isApiError, Json.getField]
    | num n => simp [apiCall, specNonOkMessage, h, hb, isApiError, Json.getField]
    | str s => simp [apiCall, specNonOkMessage, h, hb, isApiError, Json.getField]
    | arr elems => simp [apiCall, specNonOkMessage, h, hb, isApiError, Json.getField]

/-- C4: on every non-2xx response, each operation (given inputs passing its
local validation) rejects with the body's `message` field when the body
parses as JSON carrying a string `message`, and otherwise with the
status-derived text — `specNonOkMessage` is the spec-side description of
that rule. -/
theorem nonOk_rejects_with_body_or_status_message (resp : HttpResponse)
    (h : resp.ok = false) :
    apiCall resp = Except.error (specNonOkMessage resp) ∧
    getAllUsers resp = Except.error (specNonOkMessage resp) ∧
    createUser ⟨"Alice", "Smith", JSNum.val 30⟩ resp =
      Except.error (specNonOkMessage resp) ∧
    getUserById "abc" resp = Except.error (specNonOkMessage resp) ∧
    updateUserById "abc" ⟨none, none, none⟩ resp =
      Except.error (specNonOkMessage resp) ∧
    deleteUserById "abc" resp = Except.error (specNonOkMessage resp) := by
  have hapi := apiCall_nonOk resp h
  have hcreate : createUserRequest ⟨"Alice", "Smith", JSNum.val 30⟩ =
      Except.ok ⟨"Alice", "Smith", JSNum.val 30⟩ := rfl
  have hget : getUserByIdRequest "abc" = Except.ok "abc" := rfl
  have hupd : updateUserByIdRequest "abc" ⟨none, none, none⟩ =
      Except.ok ⟨none, none, none⟩ := rfl
  have hdel : deleteUserByIdRequest "abc" = Except.ok "abc" := rfl
  exact ⟨hapi, by simp [getAllUsers, hapi], by simp [createUser, hcreate, hapi],
    by simp [getUserById, hget, hapi], by simp [updateUserById, hupd, hapi],
    by simp [deleteUserById, hdel, hapi]⟩

/-- C4 witness: a 404 response carrying a JSON error body; every operation
surfaces the body's message. -/
theorem nonOk_rejects_witness :
    specNonOkMessage ⟨404, "Not Found", some "application/json",
        "\x7b\x7d", some (Json.obj [("message",
          Json.str "User tidak ditemukan")])⟩ = "User tidak ditemukan" ∧
    getUserById "abc" ⟨404, "Not Found", some "application/json",
        "\x7b\x7d", some (Json.obj [("message",
          Json.str "User tidak ditemukan")])⟩ =
      Except.error "User tidak ditemukan" :=
  ⟨rfl, ((nonOk_rejects_with_body_or_status_message
    ⟨404, "Not Found", some "application/json", "\x7b\x7d",
      some (Json.obj [("message", Json.str "User tidak ditemukan")])⟩
    rfl).2.2.2.1)⟩

/-- C5: `updateUserById` validates each supplied field independently — for
any id passing the id check, `{age: 0}` rejects with the age validation
message, a whitespace-only `firstname` rejects with the firstname
validation message, and `{}` (no fields) sends the empty patch body and
resolves with the server's message on a 2xx text response. -/
theorem updateUserById_per_field_validation (id : String)
    (resp : HttpResponse) (hid : ¬ jsTrim id = "")
    (hok : resp.ok = true) (hct : resp.hasJsonContentType = false) :
    updateUserByIdRequest id ⟨none, none, some (JSNum.val 0)⟩ =
      Except.error nonPositiveAgeMessage ∧
    updateUserByIdRequest id ⟨some "  ", none, none⟩ =
      Except.error emptyFirstnameMessage ∧
    updateUserByIdRequest id ⟨none, none, none⟩ =
      Except.ok ⟨none, none, none⟩ ∧
    updateUserById id ⟨none, none, none⟩ resp =
      Except.ok (ApiValue.text resp.bodyText) := by
  have h1 : updateUserByIdRequest id ⟨none, none, some (JSNum.val 0)⟩ =
      Except.error nonPositiveAgeMessage := by
    unfold updateUserByIdRequest; rw [if_neg hid]; rfl
  have h2 : updateUserByIdRequest id ⟨some "  ", none, none⟩ =
      Except.error emptyFirstnameMessage := by
    unfold updateUserByIdRequest; rw [if_neg hid]; rfl
  have h3 : updateUserByIdRequest id ⟨none, none, none⟩ =
      Except.ok ⟨none, none, none⟩ := by
    unfold updateUserByIdRequest; rw [if_neg hid]; rfl
  refine ⟨h1, h2, h3, ?_⟩
  simp [updateUserById, h3, apiCall, hok, hct]

/-- C5 witness: id `"abc"` with a plain-text 200 response. -/
theorem updateUserById_per_field_validation_witness :
    updateUserByIdRequest "abc" ⟨none, none, some (JSNum.val 0)⟩ =
      Except.error nonPositiveAgeMessage ∧
    updateUserByIdRequest "abc" ⟨some "  ", none, none⟩ =
      Except.error emptyFirstnameMessage ∧
    updateUserByIdRequest "abc" ⟨none, none, none⟩ =
      Except.ok ⟨none, none, none⟩ ∧
    updateUserById "abc" ⟨none, none, none⟩
        ⟨200, "OK", none, "User berhasil diperbarui", none⟩ =
      Except.ok (ApiValue.text "User berhasil diperbarui") :=
  updateUserById_per_field_validation "abc"
    ⟨200, "OK", none, "User berhasil diperbarui", none⟩
    (by decide) rfl rfl

/-- C6: an empty or whitespace-only id makes both `getUserById` and
`deleteUserById` reject with the id validation message before any request
is built; and `getUserById` on a well-formed id whose request comes back
404 with a JSON body carrying a string `message` rejects with exactly that
body-derived message. -/
theorem id_validation_and_404_message :
    (∀ (id : String) (resp : HttpResponse), jsTrim id = "" →
      getUserByIdRequest id = Except.error invalidIdMessage ∧
      deleteUserByIdRequest id = Except.error invalidIdMessage ∧
      getUserById id resp = Except.error invalidIdMessage ∧
      deleteUserById id resp = Except.error invalidIdMessage) ∧
    (∀ (id : String) (resp : HttpResponse) (body : Json) (m : String),
      ¬ jsTrim id = "" → resp.status = 404 → resp.bodyJson = some body →
      body.getField "message" = some (Json.str m) →
      getUserById id resp = Except.error m) := by
  constructor
  · intro id resp hid
    refine ⟨by simp [getUserByIdRequest, hid],
      by simp [deleteUserByIdRequest, hid],
      by simp [getUserById, getUserByIdRequest, hid],
      by simp [deleteUserById, deleteUserByIdRequest, hid]⟩
  · intro id resp body m hid h404 hbody hm
    have hok : resp.ok = false := by simp [HttpResponse.ok, h404]
    have hspec : specNonOkMessage resp = m := by
      simp [specNonOkMessage, hbody, hm]
    have hapi := apiCall_nonOk resp hok
    rw [hspec] at hapi
    simp [getUserById, getUserByIdRequest, hid, hapi]

/-- C6 witness: the empty id short-circuits both operations; `"abc"` on a
404 with a JSON error body surfaces the body's message. -/
theorem id_validation_and_404_message_witness :
    getUserById "" ⟨200, "OK", none, "", none⟩ =
      Except.error invalidIdMessage ∧
    deleteUserById "" ⟨200, "OK", none, "", none⟩ =
      Except.error invalidIdMessage ∧
    getUserById "abc" ⟨404, "Not Found", some "application/json",
        "\x7b\x7d", some (Json.obj [("message",
          Json.str "Pengguna tidak ditemukan")])⟩ =
      Except.error "Pengguna tidak ditemukan" :=
  ⟨((id_validation_and_404_message.1 "" ⟨200, "OK", none, "", none⟩
      rfl).2.2.1),
   ((id_validation_and_404_message.1 "" ⟨200, "OK", none, "", none⟩
      rfl).2.2.2),
   (id_validation_and_404_message.2 "abc"
      ⟨404, "Not Found", some "application/json", "\x7b\x7d",
        some (Json.obj [("message", Json.str "Pengguna tidak ditemukan")])⟩
      (Json.obj [("message", Json.str "Pengguna tidak ditemukan")])
      "Pengguna tidak ditemukan" (by decide) rfl rfl rfl)⟩

/-- C7: on every 2xx response the shared request routine returns the body
parsed as JSON when the `content-type` header is present and contains the
JSON media type, and the raw body text otherwise — in particular whenever
the header is absent. -/
theorem apiCall_content_negotiation (resp : HttpResponse)
    (hok : resp.ok = true) :
    (∀ j : Json, resp.hasJsonContentType = true → resp.bodyJson = some j →
      apiCall resp = Except.ok (ApiValue.json j)) ∧
    (resp.hasJsonContentType = false →
      apiCall resp = Except.ok (ApiValue.text resp.bodyText)) ∧
    (resp.contentType = none → resp.hasJsonContentType = false) := by
  refine ⟨fun j hct hj => by simp [apiCall, hok, hct, hj],
    fun hct => by simp [apiCall, hok, hct],
    fun hnone => by simp [HttpResponse.hasJsonContentType, hnone]⟩

/-- C7 witness: a JSON-typed 200 response yields the parsed body; a 200
response without a `content-type` header yields the raw text. -/
theorem apiCall_content_negotiation_witness :
    apiCall ⟨200, "OK", some "application/json; charset=utf-8", "[]",
        some (Json.arr [])⟩ =
      Except.ok (ApiValue.json (Json.arr [])) ∧
    apiCall ⟨201, "Created", none, "User berhasil ditambahkan", none⟩ =
      Except.ok (ApiValue.text "User berhasil ditambahkan") :=
  ⟨(apiCall_content_negotiation
      ⟨200, "OK", some "application/json; charset=utf-8", "[]",
        some (Json.arr [])⟩ rfl).1 (Json.arr []) (by decide) rfl,
   (apiCall_content_negotiation
      ⟨201, "Created", none, "User berhasil ditambahkan", none⟩ rfl).2.1 rfl⟩

/-- Helper: a successful `createUserRequest` always carries the trimmed
names and the unchanged numeric age. -/
lemma createUserRequest_ok_shape (u : CreateInput) (b : CreateBody)
    (h : createUserRequest u = Except.ok b) :
    b.firstname = jsTrim u.firstname ∧ b.lastname = jsTrim u.lastname ∧
    b.age = u.age := by
  unfold createUserRequest at h
  split at h
  · cases h
  · split at h
    · cases h
    · split at h
      · cases h
      · cases h
        exact ⟨rfl, rfl, rfl⟩

/-- C8: round-trip — for a valid create input, the POSTed body carries the
trimmed/normalized fields, and `getUserById` on the id the (idealized,
spec-modelled) server assigned resolves with a user record whose
`firstname`, `lastname` and `age` fields are exactly those normalized
input fields. -/
theorem create_get_round_trip (u : CreateInput) (id : String)
    (resp : HttpResponse) (b : CreateBody)
    (hreq : createUserRequest u = Except.ok b)
    (hid : ¬ jsTrim id = "")
    (hok : resp.ok = true)
    (hct : resp.hasJsonContentType = true)
    (hbody : resp.bodyJson = some (serverUserJson b id)) :
    getUserById id resp = Except.ok (serverUserJson b id) ∧
    (serverUserJson b id).getField "firstname" =
      some (Json.str (jsTrim u.firstname)) ∧
    (serverUserJson b id).getField "lastname" =
      some (Json.str (jsTrim u.lastname)) ∧
    (serverUserJson b id).getField "age" = some (Json.num u.age) := by
  obtain ⟨hf, hl, ha⟩ := createUserRequest_ok_shape u b hreq
  have hisUser : isUser (serverUserJson b id) = true := rfl
  have hgetreq : getUserByIdRequest id = Except.ok id := by
    simp [getUserByIdRequest, hid]
  have hapi : apiCall resp = Except.ok (ApiValue.json (serverUserJson b id)) := by
    simp [apiCall, hok, hct, hbody]
  refine ⟨by simp [getUserById, hgetreq, hapi, hisUser], ?_, ?_, ?_⟩
  · show some (Json.str b.firstname) = some (Json.str (jsTrim u.firstname))
    rw [hf]
  · show some (Json.str b.lastname) = some (Json.str (jsTrim u.lastname))
    rw [hl]
  · show some (Json.num b.age) = some (Json.num u.age)
    rw [ha]

/-- C8 witness: creating `⟨" Alice ", "Smith", 30⟩` and reading back id
`"u1"` from the idealized server yields the trimmed fields. -/
theorem create_get_round_trip_witness :
    getUserById "u1" ⟨200, "OK", some "application/json", "\x7b\x7d",
        some (serverUserJson ⟨"Alice", "Smith", JSNum.val 30⟩ "u1")⟩ =
      Except.ok (serverUserJson ⟨"Alice", "Smith", JSNum.val 30⟩ "u1") ∧
    (serverUserJson ⟨"Alice", "Smith", JSNum.val 30⟩ "u1").getField
        "firstname" = some (Json.str (jsTrim " Alice ")) :=
  ⟨(create_get_round_trip ⟨" Alice ", "Smith", JSNum.val 30⟩ "u1"
      ⟨200, "OK", some "application/json", "\x7b\x7d",
        some (serverUserJson ⟨"Alice", "Smith", JSNum.val 30⟩ "u1")⟩
      ⟨"Alice", "Smith", JSNum.val 30⟩ (by rfl) (by decide) rfl (by decide)
      rfl).1,
   (create_get_round_trip ⟨" Alice ", "Smith", JSNum.val 30⟩ "u1"
      ⟨200, "OK", some "application/json", "\x7b\x7d",
        some (serverUserJson ⟨"Alice", "Smith", JSNum.val 30⟩ "u1")⟩
      ⟨"Alice", "Smith", JSNum.val 30⟩ (by rfl) (by decide) rfl (by decide)
      rfl).2.1⟩

/-- C9 (implicit): the two operations disagree on a `NaN` age — the
falsiness check `!user.age` in `createUser` rejects it before any request,
while the per-field guard `Number(updates.age) <= 0` in `updateUserById`
is false for `NaN`, so the PATCH request is issued carrying it. -/
theorem nan_age_validation_disagreement (resp : HttpResponse) :
    createUserRequest ⟨"Alice", "Smith", JSNum.nan⟩ =
      Except.error nonPositiveAgeMessage ∧
    createUser ⟨"Alice", "Smith", JSNum.nan⟩ resp =
      Except.error nonPositiveAgeMessage ∧
    updateUserByIdRequest "abc" ⟨none, none, some JSNum.nan⟩ =
      Except.ok ⟨none, none, some JSNum.nan⟩ ∧
    updateUserById "abc" ⟨none, none, some JSNum.nan⟩ resp = apiCall resp :=
  ⟨rfl, rfl, rfl, rfl⟩

/-- C10 (implicit): the `isUser` shape check only tests field presence and
primitive types, so both `getAllUsers` and `getUserById` resolve with
records violating the data-model invariants — here a user whose
`firstname` is whitespace-only (empty after trimming), whose `lastname` is
empty, and whose `age` is negative. -/
theorem shape_check_ignores_invariants :
    isUser (Json.obj [("id", Json.str "u1"), ("firstname", Json.str "   "),
      ("lastname", Json.str ""), ("age", Json.num (JSNum.val (-5)))]) =
      true ∧
    jsTrim "   " = "" ∧
    (JSNum.val (-5)).le0 = true ∧
    getAllUsers ⟨200, "OK", some "application/json", "[]",
        some (Json.arr [Json.obj [("id", Json.str "u1"),
          ("firstname", Json.str "   "), ("lastname", Json.str ""),
          ("age", Json.num (JSNum.val (-5)))]])⟩ =
      Except.ok [Json.obj [("id", Json.str "u1"),
        ("firstname", Json.str "   "), ("lastname", Json.str ""),
        ("age", Json.num (JSNum.val (-5)))]] ∧
    getUserById "u1" ⟨200, "OK", some "application/json", "\x7b\x7d",
        some (Json.obj [("id", Json.str "u1"),
          ("firstname", Json.str "   "), ("lastname", Json.str ""),
          ("age", Json.num (JSNum.val (-5)))])⟩ =
      Except.ok (Json.obj [("id", Json.str "u1"),
        ("firstname", Json.str "   "), ("lastname", Json.str ""),
        ("age", Json.num (JSNum.val (-5)))]) :=
  ⟨rfl, rfl, by decide, rfl, rfl⟩
